import Mathlib

/-!
Verification of the dashboard-app repository against its specification.

The repository has two variants of the same Express server:
  - `server.js` (the JWT variant): local token verification, three configured
    backends (reminders, classquizzes, seminars), auth gate mounted on `/api`
    only, and unauthenticated requests always answered with a redirect.
  - the unnamed variant (the cookie variant): remote token verification,
    a single configured backend (reminders), auth gate on `/api` and `/`,
    and a 401 JSON answer for unauthenticated API requests.

The embedding below translates both variants' route handlers into pure Lean
functions.  Outbound HTTP calls are represented explicitly: the outcome of a
fetch is a value of type `FetchOutcome` (a network error, or a response with a
status and a JSON-parse outcome), and each handler returns, besides its HTTP
answer, the list of outbound calls it attempted, so that properties about
"calls issued to a backend" are statable.
-/

namespace DashboardApp

/-! ## Configuration constants (the hardcoded fallback defaults of the source) -/

def authService : String := "https://inacio-auth.fly.dev"

def dashboardBase : String := "https://inacio-dashboard.fly.dev"

def remindersUrl : String := "https://reminders-app.fly.dev"

def remindersApiSecret : String := "assistant-secret-key"

def classquizzesUrl : String := "https://classquizzes.fly.dev"

def seminarsUrl : String := "https://seminars-app.fly.dev"

def seminarsApiSecret : String := "seminars-api-secret-for-dashboard"

/-! ## JavaScript value helpers -/

/-- Truthiness of a possibly-absent string: `undefined` and `""` are falsy. -/
def truthy : Option String → Bool
  | none => false
  | some s => s != ""

/-- JavaScript `x || d` for a possibly-absent number `x`: `undefined` and `0`
are falsy, so both fall back to the default. -/
def jsNumOr : Option Int → Int → Int
  | none, d => d
  | some v, d => if v == 0 then d else v

/-- JavaScript `s.replace(pat, repl)` with a string pattern replaces the first
occurrence only. -/
def replaceFirst (s pat repl : String) : String :=
  match s.splitOn pat with
  | [] => s
  | [x] => x
  | x :: rest => x ++ repl ++ String.intercalate pat rest

/-- A JavaScript id value as found in upstream JSON: a string or a number. -/
inductive JsValue where
  | str (s : String)
  | num (n : Int)
deriving DecidableEq

/-- Whether a `JsValue` is a string. -/
def JsValue.isStr : JsValue → Bool
  | .str _ => true
  | .num _ => false

/-- JavaScript strict equality `v === s` between an arbitrary JSON value `v`
and a string `s`: a number is never strictly equal to a string. -/
def JsValue.strictEqStr : JsValue → String → Bool
  | .str s, t => s == t
  | .num _, _ => false

/-! ## Upstream JSON shapes consumed by the handlers -/

/-- A reminder record as consumed by the dashboard (`r.id`, `r.completed`);
the remaining fields are passed through untouched and elided here. -/
structure Reminder where
  id : JsValue
  completed : Bool
deriving DecidableEq

/-- A seminar record: pure pass-through data, never inspected. -/
structure Seminar where
  raw : String
deriving DecidableEq

/-- JSON of `GET <reminders>/api/external/reminders`: `count` and `reminders`
may each be absent. -/
structure RemJson where
  count : Option Int
  reminders : Option (List Reminder)
deriving DecidableEq

/-- The `stats` object inside the reminders stats JSON; each field may be
absent. -/
structure StatsObj where
  total : Option Int
  incomplete : Option Int
  overdue : Option Int
  highPriority : Option Int
deriving DecidableEq

/-- JSON of `GET <reminders>/api/external/stats`. -/
structure StatsJson where
  stats : Option StatsObj
deriving DecidableEq

/-- JSON of `GET <seminars>/api/external/stats`. -/
structure SemStatsJson where
  upcoming_seminars : Option Int
  total_speakers : Option Int
  pending_tasks : Option Int
deriving DecidableEq

/-- JSON of `GET <seminars>/api/external/upcoming`. -/
structure SemUpcomingJson where
  seminars : Option (List Seminar)
deriving DecidableEq

/-! ## Outbound calls -/

/-- The JSON body of one of the two POST calls to the reminders backend. -/
inductive JsonBody where
  | create (secret : String) (title : Option String) (notes : String) (priority : String)
  | bulk (secret : String) (action : String) (ids : List String)
deriving DecidableEq

/-- The secret field carried inside a POST body. -/
def JsonBody.secretField : JsonBody → String
  | .create s _ _ _ => s
  | .bulk s _ _ => s

/-- An outbound HTTP call as built by the source: method, URL base, query
parameters (structured; `encodeURIComponent` is a serialization detail),
headers, and optional JSON body. -/
structure OutCall where
  method : String
  base : String
  query : List (String × String)
  headers : List (String × String)
  body : Option JsonBody
deriving DecidableEq

/-- Overview fetch `GET <reminders>/api/external/reminders?secret=..&today=true`. -/
def remindersTodayFetch : OutCall :=
  ⟨"GET", remindersUrl ++ "/api/external/reminders",
   [("secret", remindersApiSecret), ("today", "true")], [], none⟩

/-- Overview fetch `GET <reminders>/api/external/stats?secret=..`. -/
def remindersStatsFetch : OutCall :=
  ⟨"GET", remindersUrl ++ "/api/external/stats",
   [("secret", remindersApiSecret)], [], none⟩

/-- Overview fetch `GET <seminars>/api/external/stats?secret=..`. -/
def seminarsStatsFetch : OutCall :=
  ⟨"GET", seminarsUrl ++ "/api/external/stats",
   [("secret", seminarsApiSecret)], [], none⟩

/-- Overview fetch `GET <seminars>/api/external/upcoming?secret=..&limit=5`. -/
def seminarsUpcomingFetch : OutCall :=
  ⟨"GET", seminarsUrl ++ "/api/external/upcoming",
   [("secret", seminarsApiSecret), ("limit", "5")], [], none⟩

/-- The read fetch of the toggle endpoint:
`GET <reminders>/api/external/reminders?secret=..`. -/
def toggleListFetch : OutCall :=
  ⟨"GET", remindersUrl ++ "/api/external/reminders",
   [("secret", remindersApiSecret)], [], none⟩

/-- The filtered list fetch of the cookie variant's `GET /api/reminders`
proxy: `secret` first, then each filter parameter appended under the same
conditions as the source (`folder`, `tag`, `search`, `today` when truthy,
`completed` when present). -/
def listRemindersFetch (folder completed today tag search : Option String) : OutCall :=
  ⟨"GET", remindersUrl ++ "/api/external/reminders",
   [("secret", remindersApiSecret)]
     ++ (if truthy folder then [("folder", folder.getD "")] else [])
     ++ (match completed with | some c => [("completed", c)] | none => [])
     ++ (if truthy today then [("today", "true")] else [])
     ++ (if truthy tag then [("tag", tag.getD "")] else [])
     ++ (if truthy search then [("search", search.getD "")] else []),
   [], none⟩

/-- Request body of `POST /api/reminders` after `express.json()`: each field
may be absent. -/
structure CreateBody where
  title : Option String
  notes : Option String
  priority : Option String
deriving DecidableEq

/-- The creation call `POST <reminders>/api/external/reminder`: no query
parameters; the secret travels inside the JSON body, together with the title
and the destructuring defaults `notes = ""`, `priority = "normal"`. -/
def createReminderCall (b : CreateBody) : OutCall :=
  ⟨"POST", remindersUrl ++ "/api/external/reminder", [],
   [("Content-Type", "application/json")],
   some (.create remindersApiSecret b.title (b.notes.getD "") (b.priority.getD "normal"))⟩

/-- The bulk call `POST <reminders>/api/external/bulk`: no query parameters;
the secret, the action and the id list travel inside the JSON body. -/
def bulkWriteCall (action : String) (ids : List String) : OutCall :=
  ⟨"POST", remindersUrl ++ "/api/external/bulk", [],
   [("Content-Type", "application/json")],
   some (.bulk remindersApiSecret action ids)⟩

/-! ## Fetch outcomes -/

instance {ε α : Type} [DecidableEq ε] [DecidableEq α] : DecidableEq (Except ε α) := fun a b =>
  match a, b with
  | .error e, .error f =>
    if h : e = f then .isTrue (by rw [h]) else .isFalse (by intro hc; cases hc; exact h rfl)
  | .error _, .ok _ => .isFalse (by intro hc; cases hc)
  | .ok _, .error _ => .isFalse (by intro hc; cases hc)
  | .ok x, .ok y =>
    if h : x = y then .isTrue (by rw [h]) else .isFalse (by intro hc; cases hc; exact h rfl)

/-- An upstream HTTP response: its status, and the outcome of `.json()` on
its body (`Except.error` models a parse failure, which throws in the source). -/
structure UpResponse (α : Type) where
  status : Nat
  body : Except Unit α
deriving DecidableEq

/-- Outcome of one `fetch`: `Except.error` models a network failure (the
`fetch` promise rejecting); otherwise a response arrived. -/
abbrev FetchOutcome (α : Type) := Except Unit (UpResponse α)

/-- The value of `await (await fetch ..).json()`: errors if the fetch threw
or the body failed to parse. -/
def readJson {α : Type} : FetchOutcome α → Except Unit α
  | Except.error e => Except.error e
  | Except.ok r => r.body

/-! ## Response shapes of the dashboard's own handlers -/

/-- Body of a proxy handler's answer: forwarded upstream JSON, or an
`{error: msg}` object. -/
inductive RespBody (α : Type) where
  | data (j : α)
  | errObj (msg : String)
deriving DecidableEq

/-- A handler's observable result: HTTP status, body, and the outbound calls
it attempted, in order. -/
structure HttpResult (β : Type) where
  status : Nat
  body : β
  calls : List OutCall
deriving DecidableEq

/-! ## Overview aggregation -/

/-- One slot of the overview's `apps` object. -/
structure RemindersSummary where
  name : String
  icon : String
  color : String
  todayCount : Int
  total : Int
  incomplete : Int
  overdue : Int
  highPriority : Int
  items : List Reminder
deriving DecidableEq

/-- The fixed classquizzes slot of the JWT variant. -/
structure QuizSummary where
  name : String
  icon : String
  color : String
  url : String
deriving DecidableEq

/-- The seminars slot of the JWT variant. -/
structure SemSummary where
  name : String
  icon : String
  color : String
  upcomingCount : Int
  totalSpeakers : Int
  pendingTasks : Int
  items : List Seminar
deriving DecidableEq

/-- A slot of `overview.apps`: a backend summary, or the error marker
`{error: "Failed to load"}`. -/
inductive Slot where
  | err (msg : String)
  | rem (s : RemindersSummary)
  | quiz (q : QuizSummary)
  | sem (s : SemSummary)
deriving DecidableEq

/-- The reminders summary assembled from the two reminders fetches, with the
source's `|| 0` fallbacks and the `slice(0, 5)` preview cap. -/
def mkRemindersSummary (a : RemJson) (b : StatsJson) : RemindersSummary :=
  { name := "Reminders", icon := "✅", color := "#007AFF",
    todayCount := jsNumOr a.count 0,
    total := jsNumOr ((b.stats).bind (fun s => s.total)) 0,
    incomplete := jsNumOr ((b.stats).bind (fun s => s.incomplete)) 0,
    overdue := jsNumOr ((b.stats).bind (fun s => s.overdue)) 0,
    highPriority := jsNumOr ((b.stats).bind (fun s => s.highPriority)) 0,
    items := match a.reminders with | some l => l.take 5 | none => [] }

/-- The constant classquizzes slot: display metadata plus the admin URL; its
construction performs no fetch. -/
def classquizzesSummary : QuizSummary :=
  { name := "ClassQuizzes", icon := "📝", color := "#5856D6",
    url := classquizzesUrl ++ "/admin" }

/-- The seminars summary assembled from the two seminars fetches. -/
def mkSeminarsSummary (a : SemStatsJson) (b : SemUpcomingJson) : SemSummary :=
  { name := "Seminars", icon := "🎓", color := "#FF9500",
    upcomingCount := jsNumOr a.upcoming_seminars 0,
    totalSpeakers := jsNumOr a.total_speakers 0,
    pendingTasks := jsNumOr a.pending_tasks 0,
    items := match b.seminars with | some l => l.take 5 | none => [] }

/-- Body of the overview answer. -/
structure OverviewPayload where
  apps : List (String × Slot)
  timestamp : Nat
deriving DecidableEq

/-- The reminders block of the overview: slot value given the outcomes of the
two fetches (any throw inside the `try` yields the error marker). -/
def remindersSlot (rA : FetchOutcome RemJson) (rB : FetchOutcome StatsJson) : Slot :=
  match readJson rA with
  | Except.error _ => Slot.err "Failed to load"
  | Except.ok a =>
    match readJson rB with
    | Except.error _ => Slot.err "Failed to load"
    | Except.ok b => Slot.rem (mkRemindersSummary a b)

/-- Calls attempted by the reminders block: the stats fetch is only reached
once the first fetch has succeeded and its body has parsed. -/
def remindersBlockCalls (rA : FetchOutcome RemJson) : List OutCall :=
  match readJson rA with
  | Except.ok _ => [remindersTodayFetch, remindersStatsFetch]
  | Except.error _ => [remindersTodayFetch]

/-- The seminars block of the overview (JWT variant). -/
def seminarsSlot (sA : FetchOutcome SemStatsJson) (sB : FetchOutcome SemUpcomingJson) : Slot :=
  match readJson sA with
  | Except.error _ => Slot.err "Failed to load"
  | Except.ok a =>
    match readJson sB with
    | Except.error _ => Slot.err "Failed to load"
    | Except.ok b => Slot.sem (mkSeminarsSummary a b)

/-- Calls attempted by the seminars block. -/
def seminarsBlockCalls (sA : FetchOutcome SemStatsJson) : List OutCall :=
  match readJson sA with
  | Except.ok _ => [seminarsStatsFetch, seminarsUpcomingFetch]
  | Except.error _ => [seminarsStatsFetch]

/-- `GET /api/overview` of the JWT variant.  `now` is the value of
`Date.now()` taken at handler entry; each backend block is an independent
`try`/`catch`, and the handler always ends in `res.json(overview)`. -/
def overviewJwt (now : Nat) (rA : FetchOutcome RemJson) (rB : FetchOutcome StatsJson)
    (sA : FetchOutcome SemStatsJson) (sB : FetchOutcome SemUpcomingJson) :
    HttpResult OverviewPayload :=
  { status := 200,
    body := { apps := [("reminders", remindersSlot rA rB),
                       ("classquizzes", Slot.quiz classquizzesSummary),
                       ("seminars", seminarsSlot sA sB)],
              timestamp := now },
    calls := remindersBlockCalls rA ++ seminarsBlockCalls sA }

/-- `GET /api/overview` of the cookie variant: only the reminders backend is
configured. -/
def overviewCookie (now : Nat) (rA : FetchOutcome RemJson) (rB : FetchOutcome StatsJson) :
    HttpResult OverviewPayload :=
  { status := 200,
    body := { apps := [("reminders", remindersSlot rA rB)], timestamp := now },
    calls := remindersBlockCalls rA }

/-! ## Proxy handlers -/

/-- `POST /api/reminders`: forward the creation to the backend; any throw
(network failure or body-parse failure) is caught and answered with a 500 and
a generic message.  The upstream status is never inspected. -/
def createHandler {α : Type} (b : CreateBody) (up : FetchOutcome α) :
    HttpResult (RespBody α) :=
  match readJson up with
  | Except.error _ => ⟨500, RespBody.errObj "Failed to create reminder", [createReminderCall b]⟩
  | Except.ok j => ⟨200, RespBody.data j, [createReminderCall b]⟩

/-- `data.reminders?.find(r => r.id === id)` of the toggle endpoint. -/
def findReminder (data : RemJson) (id : String) : Option Reminder :=
  match data.reminders with
  | none => none
  | some l => l.find? (fun r => r.id.strictEqStr id)

/-- `POST /api/reminders/:id/complete`: read the full list, locate the item
by strict equality on `id`, 404 when absent, otherwise issue the bulk call
with the inverse action; any throw is caught and answered with a 500. -/
def completeHandler {α : Type} (id : String) (listOut : FetchOutcome RemJson)
    (bulkOut : FetchOutcome α) : HttpResult (RespBody α) :=
  match readJson listOut with
  | Except.error _ => ⟨500, RespBody.errObj "Failed to update reminder", [toggleListFetch]⟩
  | Except.ok data =>
    match findReminder data id with
    | none => ⟨404, RespBody.errObj "Reminder not found", [toggleListFetch]⟩
    | some r =>
      let call := bulkWriteCall (if r.completed then "uncomplete" else "complete") [id]
      match readJson bulkOut with
      | Except.error _ => ⟨500, RespBody.errObj "Failed to update reminder", [toggleListFetch, call]⟩
      | Except.ok j => ⟨200, RespBody.data j, [toggleListFetch, call]⟩

/-- `GET /api/reminders` of the cookie variant: pass-through of the filtered
list; any throw is caught and answered with a 500. -/
def listHandler {α : Type} (folder completed today tag search : Option String)
    (up : FetchOutcome α) : HttpResult (RespBody α) :=
  match readJson up with
  | Except.error _ =>
    ⟨500, RespBody.errObj "Failed to fetch reminders",
     [listRemindersFetch folder completed today tag search]⟩
  | Except.ok j =>
    ⟨200, RespBody.data j, [listRemindersFetch folder completed today tag search]⟩

/-! ## Auth gates -/

/-- A login URL: the identity provider's login endpoint plus an optional
`returnTo` query parameter (kept structured; `encodeURIComponent` is a
serialization detail). -/
structure LoginUrl where
  base : String
  returnTo : Option String
deriving DecidableEq

/-- Result of an auth gate on one request. -/
inductive AuthResult where
  | redirect (target : LoginUrl)
  | api401 (error : String) (loginUrl : LoginUrl)
  | proceed (token : String)
deriving DecidableEq

/-- Whether an auth gate answered with a 401 JSON payload. -/
def AuthResult.is401 : AuthResult → Bool
  | .api401 _ _ => true
  | _ => false

/-- The cookie variant's API-path test: `req.path.startsWith('/api/')`,
written as a character-level prefix test (the same semantics). -/
def isApiPath (p : String) : Bool := "/api/".data.isPrefixOf p.data

/-- Request data consumed by the JWT variant's `checkAuth`. -/
structure JwtReq where
  protocol : String
  host : String
  originalUrl : String
  path : String
  queryToken : Option String
  authorization : Option String
deriving DecidableEq

/-- `checkAuth` of the JWT variant.  `valid t` models `jwt.verify` not
throwing on `t`.  Token extraction is `req.query.token ||
req.headers.authorization?.replace('Bearer ', '')`; a missing or empty token
redirects with the full original URL as `returnTo`, an invalid token
redirects with `req.path` as `returnTo`.  No branch ever answers 401.
The `path` field is the value Express hands the middleware as `req.path`:
since the gate is mounted at `/api`, that value is the mount-stripped path
(for a request to `/api/overview` it is `/overview`), while `originalUrl`
stays unstripped; the mount dispatch itself is `jwtVariantGate` below. -/
def checkAuthJwt (valid : String → Bool) (r : JwtReq) : AuthResult :=
  match (if truthy r.queryToken then r.queryToken
         else r.authorization.map (fun a => replaceFirst a "Bearer " "")) with
  | none =>
    .redirect ⟨authService ++ "/login", some (r.protocol ++ "://" ++ r.host ++ r.originalUrl)⟩
  | some t =>
    if t == "" then
      .redirect ⟨authService ++ "/login", some (r.protocol ++ "://" ++ r.host ++ r.originalUrl)⟩
    else if valid t then .proceed t
    else .redirect ⟨authService ++ "/login", some (r.protocol ++ "://" ++ r.host ++ r.path)⟩

/-- Request data consumed by the cookie variant's `requireAuth`. -/
structure CookieReq where
  cookieToken : Option String
  authorization : Option String
  path : String
  originalUrl : String
deriving DecidableEq

/-- The cookie variant's answer when no (truthy) credential is present:
401 with a `loginUrl` when `req.path` starts with `/api/`, redirect
otherwise; both carry `returnTo = <dashboard base> ++ originalUrl`.  Note
that the `path` this test sees is the mount-stripped `req.path` (the gate is
mounted at `/api`), so the 401 branch does not fire for a real request to
`/api/<route>`; see `cookieVariantGate` below. -/
def cookieNoToken (r : CookieReq) : AuthResult :=
  if isApiPath r.path then
    .api401 "Not authenticated"
      ⟨authService ++ "/login", some (dashboardBase ++ r.originalUrl)⟩
  else
    .redirect ⟨authService ++ "/login", some (dashboardBase ++ r.originalUrl)⟩

/-- `requireAuth` of the cookie variant.  `verify t` models the remote
verification round-trip succeeding (response ok and body parsed); any throw
lands in the catch branch, whose 401/redirect carries no `returnTo`.  As for
`checkAuthJwt`, the `path` field is the `req.path` Express hands the mounted
middleware, i.e. mount-stripped under the `/api` mount. -/
def requireAuthCookie (verify : String → Bool) (r : CookieReq) : AuthResult :=
  match (if truthy r.cookieToken then r.cookieToken
         else r.authorization.map (fun a => replaceFirst a "Bearer " "")) with
  | none => cookieNoToken r
  | some t =>
    if t == "" then cookieNoToken r
    else if verify t then .proceed t
    else if isApiPath r.path then
      .api401 "Not authenticated" ⟨authService ++ "/login", none⟩
    else
      .redirect ⟨authService ++ "/login", none⟩

/-! ## Express mount dispatch

Both variants mount their gate with `app.use('/api', ...)`.  For a request
whose path matches the mount, Express strips the mount prefix from the URL
the middleware sees: inside the gate, `req.path` for a request to
`/api/overview` is `/overview` (and exactly `/api` becomes `/`), while
`req.originalUrl` keeps the full URL.  The cookie variant additionally
mounts the same gate at `/`, which strips nothing. -/

/-- Whether a request path matches the `/api` mount: the path is `/api`
itself or starts with `/api/`. -/
def apiMountMatches (p : String) : Bool :=
  p == "/api" || "/api/".data.isPrefixOf p.data

/-- The `req.path` Express hands middleware mounted at `/api`: the path with
the four characters of `/api` removed, and `/` when nothing remains. -/
def apiMountStrip (p : String) : String :=
  let rest := String.mk (p.data.drop 4)
  if rest == "" then "/" else rest

/-- The `req.path` the cookie variant's gate sees for a request with real
path `p`: the `/api` mount strips its prefix for matching paths; all other
paths reach the gate through the `/` mount, unstripped. -/
def cookieGatePath (p : String) : String :=
  if apiMountMatches p then apiMountStrip p else p

/-- The cookie variant's gate as deployed: `requireAuth` applied to the
request data Express actually passes it (mount-stripped `req.path`,
unstripped `originalUrl`).  For an unauthenticated request this is the gate
run that decides the response; an authenticated `/api` request passes the
gate a second time through the `/` mount, where the same deterministic
`verify` proceeds again. -/
def cookieVariantGate (verify : String → Bool) (cookieToken authorization : Option String)
    (p originalUrl : String) : AuthResult :=
  requireAuthCookie verify ⟨cookieToken, authorization, cookieGatePath p, originalUrl⟩

/-- The JWT variant's gate as deployed: `checkAuth` is mounted at `/api`
only, so it runs — with the mount-stripped `req.path` — exactly for paths
matching the mount; every other path is simply not protected (`none`). -/
def jwtVariantGate (valid : String → Bool) (queryToken authorization : Option String)
    (protocol host originalUrl p : String) : Option AuthResult :=
  if apiMountMatches p then
    some (checkAuthJwt valid ⟨protocol, host, originalUrl, apiMountStrip p, queryToken, authorization⟩)
  else none

/-! ## Theorems -/

/-- Claim C1: every authenticated `GET /api/overview` answer has exactly one
`apps` entry per configured backend; a backend whose fetches fail gets the
slot `{error: "Failed to load"}`, every other backend keeps its valid summary,
and no failure aborts the response (status stays 200).  Stated for both
variants: the JWT variant with its three backends and the cookie variant with
its single backend. -/
theorem overview_partial_failure_isolation (now : Nat)
    (rA : FetchOutcome RemJson) (rB : FetchOutcome StatsJson)
    (sA : FetchOutcome SemStatsJson) (sB : FetchOutcome SemUpcomingJson) :
    (overviewJwt now rA rB sA sB).status = 200
    ∧ (overviewJwt now rA rB sA sB).body.apps.map Prod.fst
        = ["reminders", "classquizzes", "seminars"]
    ∧ (overviewJwt now rA rB sA sB).body.apps
        = [("reminders",
             match readJson rA, readJson rB with
             | Except.ok a, Except.ok b => Slot.rem (mkRemindersSummary a b)
             | _, _ => Slot.err "Failed to load"),
           ("classquizzes", Slot.quiz classquizzesSummary),
           ("seminars",
             match readJson sA, readJson sB with
             | Except.ok a, Except.ok b => Slot.sem (mkSeminarsSummary a b)
             | _, _ => Slot.err "Failed to load")]
    ∧ (overviewCookie now rA rB).status = 200
    ∧ (overviewCookie now rA rB).body.apps.map Prod.fst = ["reminders"]
    ∧ (overviewCookie now rA rB).body.apps
        = [("reminders",
             match readJson rA, readJson rB with
             | Except.ok a, Except.ok b => Slot.rem (mkRemindersSummary a b)
             | _, _ => Slot.err "Failed to load")] := by
  cases hA : readJson rA <;> cases hB : readJson rB <;>
    cases hC : readJson sA <;> cases hD : readJson sB <;>
      simp [overviewJwt, overviewCookie, remindersSlot, seminarsSlot, hA, hB, hC, hD]

/-- Claim C8: the overview answer always carries HTTP success and a numeric
timestamp equal to the `Date.now()` observed at handler entry, hence no
earlier than the handler's start, for any combination of fetch failures (both
variants). -/
theorem overview_timestamp_and_success (now : Nat)
    (rA : FetchOutcome RemJson) (rB : FetchOutcome StatsJson)
    (sA : FetchOutcome SemStatsJson) (sB : FetchOutcome SemUpcomingJson) :
    (overviewJwt now rA rB sA sB).status = 200
    ∧ (overviewJwt now rA rB sA sB).body.timestamp = now
    ∧ now ≤ (overviewJwt now rA rB sA sB).body.timestamp
    ∧ (overviewCookie now rA rB).status = 200
    ∧ (overviewCookie now rA rB).body.timestamp = now
    ∧ now ≤ (overviewCookie now rA rB).body.timestamp := by
  simp [overviewJwt, overviewCookie]

/-- Claim C9: in the JWT variant the classquizzes slot is the fixed object
built from display metadata and the admin URL; its construction performs no
fetch, so it never equals the error marker, whatever the other outcomes. -/
theorem classquizzes_slot_constant (now : Nat)
    (rA : FetchOutcome RemJson) (rB : FetchOutcome StatsJson)
    (sA : FetchOutcome SemStatsJson) (sB : FetchOutcome SemUpcomingJson) :
    (overviewJwt now rA rB sA sB).body.apps.lookup "classquizzes"
        = some (Slot.quiz classquizzesSummary)
    ∧ classquizzesSummary
        = ⟨"ClassQuizzes", "📝", "#5856D6", classquizzesUrl ++ "/admin"⟩
    ∧ (∀ m : String, Slot.quiz classquizzesSummary ≠ Slot.err m) := by
  refine ⟨?_, rfl, by intro m hc; cases hc⟩
  simp [overviewJwt, List.lookup]

/-- Claim C3: when the fetched list contains an item with the given id, the
bulk call's action is `"complete"` for a currently incomplete item and
`"uncomplete"` for a completed one, and its `ids` field is exactly `[id]`. -/
theorem toggle_action_matches_flag {α : Type} (id : String) (st : Nat)
    (data : RemJson) (r : Reminder) (bulkOut : FetchOutcome α)
    (hfind : findReminder data id = some r) :
    (completeHandler id (Except.ok ⟨st, Except.ok data⟩) bulkOut).calls
        = [toggleListFetch,
           bulkWriteCall (if r.completed then "uncomplete" else "complete") [id]]
    ∧ (bulkWriteCall (if r.completed then "uncomplete" else "complete") [id]).body
        = some (JsonBody.bulk remindersApiSecret
            (if r.completed then "uncomplete" else "complete") [id]) := by
  have h1 : readJson (Except.ok (⟨st, Except.ok data⟩ : UpResponse RemJson))
      = Except.ok data := rfl
  cases hB : readJson bulkOut <;>
    simp [completeHandler, h1, hfind, hB, bulkWriteCall]

/-- Witness for C3 at a concrete input: a list holding the incomplete item
with string id "abc" leads to the bulk action "complete" on exactly ["abc"]. -/
theorem toggle_action_matches_flag_witness :
    (completeHandler "abc"
        (Except.ok ⟨200, Except.ok ⟨none, some [⟨JsValue.str "abc", false⟩]⟩⟩)
        (Except.ok ⟨200, Except.ok "done"⟩)).calls
      = [toggleListFetch, bulkWriteCall "complete" ["abc"]] :=
  (toggle_action_matches_flag "abc" 200 ⟨none, some [⟨JsValue.str "abc", false⟩]⟩
    ⟨JsValue.str "abc", false⟩ (Except.ok ⟨200, Except.ok "done"⟩) (by decide)).1

/-- Claim C4: when no item with the given id is found in the fetched list,
the answer is a 404 with body `{error: "Reminder not found"}` and the only
outbound call attempted is the read fetch: no bulk write is issued. -/
theorem toggle_unknown_id_404 {α : Type} (id : String) (st : Nat)
    (data : RemJson) (bulkOut : FetchOutcome α)
    (hfind : findReminder data id = none) :
    completeHandler id (Except.ok ⟨st, Except.ok data⟩) bulkOut
      = ⟨404, RespBody.errObj "Reminder not found", [toggleListFetch]⟩ := by
  simp [completeHandler, readJson, hfind]

/-- Witness for C4 at a concrete input: an id absent from the fetched list. -/
theorem toggle_unknown_id_404_witness :
    completeHandler "zzz"
        (Except.ok ⟨200, Except.ok ⟨none, some [⟨JsValue.str "abc", false⟩]⟩⟩)
        (Except.ok ⟨200, Except.ok "done"⟩)
      = ⟨404, RespBody.errObj "Reminder not found", [toggleListFetch]⟩ :=
  toggle_unknown_id_404 "zzz" 200 ⟨none, some [⟨JsValue.str "abc", false⟩]⟩
    (Except.ok ⟨200, Except.ok "done"⟩) (by decide)

/-- Claim C10: the toggle endpoint matches items by strict equality between
the string path parameter and the item's id, so a non-string id never
matches, and a list all of whose ids are non-strings yields a 404 — even
when an item carrying the same numeric value is present. -/
theorem toggle_nonstring_id_never_matches {α : Type} (id : String) (st : Nat)
    (data : RemJson) (bulkOut : FetchOutcome α)
    (hall : ∀ r ∈ data.reminders.getD [], r.id.isStr = false) :
    (∀ (v : JsValue) (s : String), v.isStr = false → v.strictEqStr s = false)
    ∧ (completeHandler id (Except.ok ⟨st, Except.ok data⟩) bulkOut).status = 404 := by
  have hne : ∀ (v : JsValue) (s : String), v.isStr = false → v.strictEqStr s = false := by
    intro v s hv
    cases v with
    | str t => simp [JsValue.isStr] at hv
    | num n => rfl
  refine ⟨hne, ?_⟩
  have hfind : findReminder data id = none := by
    unfold findReminder
    cases hrem : data.reminders with
    | none => rfl
    | some l =>
      apply List.find?_eq_none.mpr
      intro r hr
      have := hall r (by rw [hrem]; simpa using hr)
      simp [hne r.id id this]
  simp [completeHandler, readJson, hfind]

/-- Witness for C10 at a concrete input: the list holds the item with the
numeric id 5 and the request's path parameter is the string "5"; the answer
is still a 404. -/
theorem toggle_nonstring_id_never_matches_witness :
    (completeHandler "5"
        (Except.ok ⟨200, Except.ok ⟨none, some [⟨JsValue.num 5, false⟩]⟩⟩)
        (Except.ok ⟨200, Except.ok "done"⟩)).status = 404 :=
  (toggle_nonstring_id_never_matches "5" 200 ⟨none, some [⟨JsValue.num 5, false⟩]⟩
    (Except.ok ⟨200, Except.ok "done"⟩) (by decide)).2

/-- Claim C5: a create request supplying only a title produces the upstream
creation call whose JSON body is exactly the secret, the title, empty notes
and normal priority, and the dashboard forwards the backend's parsed JSON
verbatim with HTTP 200. -/
theorem create_defaults_and_verbatim {α : Type} (t : String) (st : Nat) (j : α) :
    createHandler ⟨some t, none, none⟩ (Except.ok ⟨st, Except.ok j⟩)
      = ⟨200, RespBody.data j, [createReminderCall ⟨some t, none, none⟩]⟩
    ∧ createReminderCall ⟨some t, none, none⟩
      = ⟨"POST", remindersUrl ++ "/api/external/reminder", [],
         [("Content-Type", "application/json")],
         some (JsonBody.create remindersApiSecret (some t) "" "normal")⟩ := by
  exact ⟨rfl, rfl⟩

/-- Counterexample to Claim C2: in the JWT variant an unauthenticated request
to the API path `/api/overview` is answered with a redirect (302), not with a
401 JSON payload as the claim requires for API paths. -/
theorem api_unauthenticated_redirect_not_401 :
    isApiPath "/api/overview" = true
    ∧ checkAuthJwt (fun _ => false)
        ⟨"https", "dash.example", "/api/overview", "/api/overview", none, none⟩
      = AuthResult.redirect
          ⟨authService ++ "/login", some "https://dash.example/api/overview"⟩
    ∧ (checkAuthJwt (fun _ => false)
        ⟨"https", "dash.example", "/api/overview", "/api/overview", none, none⟩).is401
      = false := by
  decide

/-- Claim C2 as amended: because both gates are mounted at `/api`, the
`req.path` they see is the mount-stripped path, so the cookie variant's
API-path test is false for every real request to `/api/<route>` and its 401
branches never fire: in both variants an unauthenticated request to a
protected path is answered with a redirect to the identity provider's login
endpoint, never a 401.  With no credential the redirect carries `returnTo` =
the original requested URL; after a failed validation the cookie variant's
redirect carries no `returnTo` and the JWT variant's redirect carries
`returnTo` = protocol, host and the mount-stripped path.  (The cookie 401
branch would be reachable only for paths whose mount-stripped remainder
again starts with `/api/`.) -/
theorem unauthenticated_behavior_by_variant :
    (∀ (v : String → Bool) (p o : String),
        isApiPath (cookieGatePath p) = false →
        cookieVariantGate v none none p o
          = AuthResult.redirect
              ⟨authService ++ "/login", some (dashboardBase ++ o)⟩)
    ∧ (∀ (v : String → Bool) (o : String),
        cookieVariantGate v none none "/api/overview" o
          = AuthResult.redirect
              ⟨authService ++ "/login", some (dashboardBase ++ o)⟩)
    ∧ (∀ (t p o : String), t ≠ "" →
        isApiPath (cookieGatePath p) = false →
        cookieVariantGate (fun _ => false) (some t) none p o
          = AuthResult.redirect ⟨authService ++ "/login", none⟩)
    ∧ (∀ (v : String → Bool) (c a : Option String) (p o : String),
        isApiPath (cookieGatePath p) = false →
        (cookieVariantGate v c a p o).is401 = false)
    ∧ (∀ (v : String → Bool) (pr hs o p : String),
        apiMountMatches p = true →
        jwtVariantGate v none none pr hs o p
          = some (AuthResult.redirect
              ⟨authService ++ "/login", some (pr ++ "://" ++ hs ++ o)⟩))
    ∧ (∀ (t pr hs o p : String), t ≠ "" →
        apiMountMatches p = true →
        jwtVariantGate (fun _ => false) (some t) none pr hs o p
          = some (AuthResult.redirect
              ⟨authService ++ "/login", some (pr ++ "://" ++ hs ++ apiMountStrip p)⟩))
    ∧ (∀ (v : String → Bool) (r : JwtReq), (checkAuthJwt v r).is401 = false)
    ∧ authService ++ "/login" ≠ "" := by
  refine ⟨?_, ?_, ?_, ?_, ?_, ?_, ?_, by decide⟩
  · intro v p o hp
    simp [cookieVariantGate, requireAuthCookie, truthy, cookieNoToken, hp]
  · intro v o
    have hp : isApiPath (cookieGatePath "/api/overview") = false := by decide
    simp [cookieVariantGate, requireAuthCookie, truthy, cookieNoToken, hp]
  · intro t p o ht hp
    simp [cookieVariantGate, requireAuthCookie, truthy, ht, hp]
  · intro v c a p o hp
    unfold cookieVariantGate requireAuthCookie
    split
    · simp [cookieNoToken, hp, AuthResult.is401]
    · split
      · simp [cookieNoToken, hp, AuthResult.is401]
      · split
        · rfl
        · simp [hp, AuthResult.is401]
  · intro v pr hs o p hm
    simp [jwtVariantGate, hm, checkAuthJwt, truthy]
  · intro t pr hs o p ht hm
    simp [jwtVariantGate, hm, checkAuthJwt, truthy, ht]
  · intro v r
    unfold checkAuthJwt
    split
    · rfl
    · split
      · rfl
      · split
        · rfl
        · rfl

/-- Witness for the amended C2: the no-credential and failed-validation
conjuncts applied at concrete requests to real API paths; the JWT
failed-validation redirect shows the mount-stripped `returnTo`. -/
theorem unauthenticated_behavior_by_variant_witness :
    cookieVariantGate (fun _ => false) none none "/api/reminders" "/api/reminders"
      = AuthResult.redirect
          ⟨authService ++ "/login", some (dashboardBase ++ "/api/reminders")⟩
    ∧ cookieVariantGate (fun _ => false) (some "tok") none "/api/reminders" "/api/reminders"
      = AuthResult.redirect ⟨authService ++ "/login", none⟩
    ∧ jwtVariantGate (fun _ => false) (some "tok") none
        "https" "d.example" "/api/overview?a=1" "/api/overview"
      = some (AuthResult.redirect
          ⟨authService ++ "/login", some "https://d.example/overview"⟩) := by
  refine ⟨?_, ?_, ?_⟩
  · rw [unauthenticated_behavior_by_variant.1 (fun _ => false) "/api/reminders"
      "/api/reminders" (by decide)]
  · rw [unauthenticated_behavior_by_variant.2.2.1 "tok" "/api/reminders" "/api/reminders"
      (by decide) (by decide)]
  · rw [unauthenticated_behavior_by_variant.2.2.2.2.2.1 "tok" "https" "d.example"
      "/api/overview?a=1" "/api/overview" (by decide) (by decide)]
    decide

/-- Counterexample to Claim C6: the creation call issued by
`POST /api/reminders` carries no `secret` query parameter at all — the shared
secret travels inside the JSON body instead. -/
theorem create_call_secret_not_in_query :
    (createHandler (α := String) ⟨some "Buy milk", none, none⟩
        (Except.ok ⟨200, Except.ok "created"⟩)).calls
      = [createReminderCall ⟨some "Buy milk", none, none⟩]
    ∧ (createReminderCall ⟨some "Buy milk", none, none⟩).query.lookup "secret" = none
    ∧ (createReminderCall ⟨some "Buy milk", none, none⟩).body.map JsonBody.secretField
      = some remindersApiSecret := by
  decide

/-- Claim C6 as amended: every GET fetch (the four overview fetches, the
toggle's read fetch and the cookie variant's filtered list fetch) attaches
the backend's shared secret as a `secret` query parameter and sends no
headers, while the two POST calls (create and bulk) attach the secret as a
field of their JSON body and carry it neither in the query nor in a header. -/
theorem secret_attachment_by_call_kind :
    (remindersTodayFetch.query.lookup "secret" = some remindersApiSecret
      ∧ remindersTodayFetch.headers = [])
    ∧ (remindersStatsFetch.query.lookup "secret" = some remindersApiSecret
      ∧ remindersStatsFetch.headers = [])
    ∧ (seminarsStatsFetch.query.lookup "secret" = some seminarsApiSecret
      ∧ seminarsStatsFetch.headers = [])
    ∧ (seminarsUpcomingFetch.query.lookup "secret" = some seminarsApiSecret
      ∧ seminarsUpcomingFetch.headers = [])
    ∧ (toggleListFetch.query.lookup "secret" = some remindersApiSecret
      ∧ toggleListFetch.headers = [])
    ∧ (∀ f c t tg s : Option String,
        (listRemindersFetch f c t tg s).query.lookup "secret" = some remindersApiSecret
        ∧ (listRemindersFetch f c t tg s).headers = [])
    ∧ (∀ b : CreateBody,
        (createReminderCall b).query.lookup "secret" = none
        ∧ (createReminderCall b).headers.lookup "secret" = none
        ∧ (createReminderCall b).body.map JsonBody.secretField = some remindersApiSecret)
    ∧ (∀ (a : String) (ids : List String),
        (bulkWriteCall a ids).query.lookup "secret" = none
        ∧ (bulkWriteCall a ids).headers.lookup "secret" = none
        ∧ (bulkWriteCall a ids).body.map JsonBody.secretField = some remindersApiSecret) := by
  refine ⟨by decide, by decide, by decide, by decide, by decide, ?_, ?_, ?_⟩
  · intro f c t tg s
    exact ⟨rfl, rfl⟩
  · intro b
    exact ⟨rfl, rfl, rfl⟩
  · intro a ids
    exact ⟨rfl, rfl, rfl⟩

/-- Counterexample to Claim C7: an upstream 503 whose body still parses as
JSON is not surfaced as a 500-class response — the proxy write forwards the
parsed body with HTTP 200, because no handler ever inspects the upstream
status. -/
theorem non2xx_upstream_forwarded_as_200 :
    (createHandler (α := String) ⟨some "Buy milk", none, none⟩
        (Except.ok ⟨503, Except.ok "UPSTREAM ERROR BODY"⟩)).status = 200
    ∧ (createHandler (α := String) ⟨some "Buy milk", none, none⟩
        (Except.ok ⟨503, Except.ok "UPSTREAM ERROR BODY"⟩)).body
      = RespBody.data "UPSTREAM ERROR BODY" := by
  decide

/-- Claim C7 as amended: a network failure or a body-parse failure of an
upstream call is caught by the calling handler and surfaced as a 500 with a
generic message (never an unhandled fault), but a non-2xx upstream status by
itself is not treated as a failure: whenever the body parses, the handlers
forward it with HTTP 200 regardless of the upstream status. -/
theorem upstream_failure_surfacing {α : Type} :
    (∀ b : CreateBody,
        createHandler (α := α) b (Except.error ())
          = ⟨500, RespBody.errObj "Failed to create reminder", [createReminderCall b]⟩)
    ∧ (∀ (b : CreateBody) (st : Nat),
        createHandler (α := α) b (Except.ok ⟨st, Except.error ()⟩)
          = ⟨500, RespBody.errObj "Failed to create reminder", [createReminderCall b]⟩)
    ∧ (∀ (b : CreateBody) (st : Nat) (j : α),
        createHandler b (Except.ok ⟨st, Except.ok j⟩)
          = ⟨200, RespBody.data j, [createReminderCall b]⟩)
    ∧ (∀ (id : String) (bulkOut : FetchOutcome α),
        completeHandler id (Except.error ()) bulkOut
          = ⟨500, RespBody.errObj "Failed to update reminder", [toggleListFetch]⟩)
    ∧ (∀ (id : String) (st : Nat) (bulkOut : FetchOutcome α),
        completeHandler id (Except.ok ⟨st, Except.error ()⟩) bulkOut
          = ⟨500, RespBody.errObj "Failed to update reminder", [toggleListFetch]⟩)
    ∧ (∀ (id : String) (st : Nat) (data : RemJson) (r : Reminder),
        findReminder data id = some r →
          completeHandler (α := α) id (Except.ok ⟨st, Except.ok data⟩) (Except.error ())
            = ⟨500, RespBody.errObj "Failed to update reminder",
               [toggleListFetch,
                bulkWriteCall (if r.completed then "uncomplete" else "complete") [id]]⟩)
    ∧ (∀ f c t tg s : Option String,
        listHandler (α := α) f c t tg s (Except.error ())
          = ⟨500, RespBody.errObj "Failed to fetch reminders",
             [listRemindersFetch f c t tg s]⟩) := by
  refine ⟨fun b => rfl, fun b st => rfl, fun b st j => rfl, fun id bulkOut => rfl,
          fun id st bulkOut => rfl, ?_, fun f c t tg s => rfl⟩
  intro id st data r hfind
  have h1 : readJson (Except.ok (⟨st, Except.ok data⟩ : UpResponse RemJson))
      = Except.ok data := rfl
  simp [completeHandler, h1, hfind, readJson]

/-- Witness for the amended C7: the toggle's bulk-stage network failure at a
concrete found item, and the create handler's network failure. -/
theorem upstream_failure_surfacing_witness :
    completeHandler (α := String) "abc"
        (Except.ok ⟨200, Except.ok ⟨none, some [⟨JsValue.str "abc", true⟩]⟩⟩)
        (Except.error ())
      = ⟨500, RespBody.errObj "Failed to update reminder",
         [toggleListFetch, bulkWriteCall "uncomplete" ["abc"]]⟩
    ∧ createHandler (α := String) ⟨some "x", none, none⟩ (Except.error ())
      = ⟨500, RespBody.errObj "Failed to create reminder",
         [createReminderCall ⟨some "x", none, none⟩]⟩ := by
  constructor
  · exact (upstream_failure_surfacing (α := String)).2.2.2.2.2.1 "abc" 200
      ⟨none, some [⟨JsValue.str "abc", true⟩]⟩ ⟨JsValue.str "abc", true⟩ (by decide)
  · exact (upstream_failure_surfacing (α := String)).1 ⟨some "x", none, none⟩

end DashboardApp
